import Mathlib

/-!
Shallow embedding of `src/st.py`, a single-page clinical decision-support
app: a cached model loader (`load_model`), an inference wrapper
(`predict_rebleeding`) that coerces nine form fields into a single-row
record, tags three columns as categorical, calls the opaque CatBoost
classifier, clamps the positive-class probability to [0,1] and falls back
to 0.5 on any error, and a risk-band display with cut points 0.4 and 0.7.

Probabilities are embedded as rationals; the trained classifier is an
opaque oracle (a function from the record to either a probability row or
an error), since the artifact itself is external to the repository.
-/

namespace St

/-- A raw value as supplied to `predict_rebleeding`: the Streamlit widgets
produce Python ints and floats, but the function is written to accept
anything coercible (its `try` block also catches coercion failures), so we
embed the value domain as int, float (rational) or string. -/
inductive RawValue where
  | int (z : ℤ)
  | float (q : ℚ)
  | str (s : String)
deriving Repr, DecidableEq

/-- Truncation toward zero, the behaviour of Python `int()` on a float. -/
def ratTrunc (q : ℚ) : ℤ :=
  if 0 ≤ q then ⌊q⌋ else -⌊-q⌋

def intCoerceErrMsg : String := "invalid literal for int() with base 10: "

def floatCoerceErrMsg : String := "could not convert string to float: "

/-- Python `int(x)` on the embedded value domain: identity on ints,
truncation toward zero on floats, decimal parse on strings (raising on a
non-integer string, which the enclosing `try` in the source catches). -/
def pyInt : RawValue → Except String ℤ
  | RawValue.int z => Except.ok z
  | RawValue.float q => Except.ok (ratTrunc q)
  | RawValue.str s =>
    match s.toInt? with
    | some z => Except.ok z
    | none => Except.error (intCoerceErrMsg ++ s)

/-- Python `float(x)` on the embedded value domain: ints and floats embed
into ℚ; strings parse (here restricted to integer literals — the only
property the source relies on is that a non-numeric string raises). -/
def pyFloat : RawValue → Except String ℚ
  | RawValue.int z => Except.ok (z : ℚ)
  | RawValue.float q => Except.ok q
  | RawValue.str s =>
    match s.toInt? with
    | some z => Except.ok (z : ℚ)
    | none => Except.error (floatCoerceErrMsg ++ s)

/-- Per-column categorical dtype flags of the single-row DataFrame
(`astype('category')` in the source sets a flag to `true`). -/
structure CatFlags where
  Method : Bool
  Location : Bool
  Descending : Bool
  Creatinine : Bool
  BUN : Bool
  PT : Bool
  APTT : Bool
  Rockall : Bool
  AIMS65 : Bool
deriving Repr, DecidableEq

/-- Dtypes as produced by the `pd.DataFrame` constructor from plain
int/float columns: no column is categorical. -/
def noCatFlags : CatFlags :=
  { Method := false, Location := false, Descending := false,
    Creatinine := false, BUN := false, PT := false, APTT := false,
    Rockall := false, AIMS65 := false }

/-- Dtypes after the three `astype('category')` assignments in
`predict_rebleeding`: exactly Method, Location and Descending. -/
def taggedFlags : CatFlags :=
  { Method := true, Location := true, Descending := true,
    Creatinine := false, BUN := false, PT := false, APTT := false,
    Rockall := false, AIMS65 := false }

/-- The single-row DataFrame built inside `predict_rebleeding`: one named
column per feature, with the per-column categorical dtype flags. -/
structure PatientRecord where
  Method : ℤ
  Location : ℤ
  Descending : ℤ
  Creatinine : ℚ
  BUN : ℚ
  PT : ℚ
  APTT : ℚ
  Rockall : ℤ
  AIMS65 : ℤ
  catFlags : CatFlags
deriving Repr, DecidableEq

/-- The opaque trained classifier handle. `predict_proba` applied to the
single-row record returns the class-probability row
(P(class 0), P(class 1 = rebleed)), or raises. -/
structure Model where
  predict_proba : PatientRecord → Except String (ℚ × ℚ)

/-- The `pd.DataFrame({...})` construction in `predict_rebleeding`,
lines 38-48 of the source: each of the nine raw values is coerced to its
declared type (`int` for Method, Location, Descending, Rockall, AIMS65;
`float` for Creatinine, BUN, PT, APTT). A coercion failure raises, which
the enclosing `try` catches. -/
def buildRecord (method location descending creatinine bun pt aptt rockall
    aims65 : RawValue) : Except String PatientRecord :=
  match pyInt method with
  | Except.error e => Except.error e
  | Except.ok m =>
  match pyInt location with
  | Except.error e => Except.error e
  | Except.ok l =>
  match pyInt descending with
  | Except.error e => Except.error e
  | Except.ok d =>
  match pyFloat creatinine with
  | Except.error e => Except.error e
  | Except.ok cr =>
  match pyFloat bun with
  | Except.error e => Except.error e
  | Except.ok bu =>
  match pyFloat pt with
  | Except.error e => Except.error e
  | Except.ok ptv =>
  match pyFloat aptt with
  | Except.error e => Except.error e
  | Except.ok ap =>
  match pyInt rockall with
  | Except.error e => Except.error e
  | Except.ok ro =>
  match pyInt aims65 with
  | Except.error e => Except.error e
  | Except.ok ai =>
    Except.ok
      { Method := m, Location := l, Descending := d, Creatinine := cr,
        BUN := bu, PT := ptv, APTT := ap, Rockall := ro, AIMS65 := ai,
        catFlags := noCatFlags }

/-- The three `astype('category')` assignments (source lines 51-53): set
the categorical dtype flag on Method, Location and Descending, leaving the
other columns as constructed. -/
def setCategoricals (r : PatientRecord) : PatientRecord :=
  { r with catFlags :=
      { r.catFlags with
          Method := true
          Location := true
          Descending := true } }

/-- `max(0.0, min(1.0, prob))` — the clamp at source line 57. -/
def clamp01 (q : ℚ) : ℚ := max 0 (min 1 q)

/-- The body of the `try` block of `predict_rebleeding` (source lines
38-57): build the record, tag the categoricals, call the model and read
the positive-class probability of the single row, then clamp. -/
def try_predict (model : Model) (method location descending creatinine bun
    pt aptt rockall aims65 : RawValue) : Except String ℚ :=
  match buildRecord method location descending creatinine bun pt aptt
      rockall aims65 with
  | Except.error e => Except.error e
  | Except.ok r =>
    match Model.predict_proba model (setCategoricals r) with
    | Except.error e => Except.error e
    | Except.ok probs => Except.ok (clamp01 probs.2)

def predictionErrorMsg (e : String) : String :=
  "Error during prediction: " ++ e

/-- `predict_rebleeding` (source lines 36-61): run the `try` block; on any
exception display the error via `st.error` (the second component records
the non-fatal message shown) and return the fallback probability 0.5. -/
def predict_rebleeding (model : Model) (method location descending
    creatinine bun pt aptt rockall aims65 : RawValue) :
    ℚ × Option String :=
  match try_predict model method location descending creatinine bun pt
      aptt rockall aims65 with
  | Except.ok p => (p, none)
  | Except.error e => ((0.5 : ℚ), some (predictionErrorMsg e))

def loadFailMsgPrefix : String :=
  "Model loading failed. Please check if catboost_model.cbm exists: "

/-- `load_model` (source lines 21-31), wrapped in `@st.cache_resource`.
`cache` is the process-wide cache cell; `readArtifact` is the outcome of
deserializing `catboost_model.cbm` (error covers a missing or corrupt
file). Returns the new cache, the result (an error models `st.error`
followed by `st.stop`, which halts the script), and the number of times
the artifact file was read during this call. On a cache hit the body is
not executed, so the file is not re-read. -/
def load_model (cache : Option Model) (readArtifact : Except String Model) :
    Option Model × Except String Model × ℕ :=
  match cache with
  | some m => (some m, Except.ok m, 0)
  | none =>
    match readArtifact with
    | Except.ok m => (some m, Except.ok m, 1)
    | Except.error e => (none, Except.error (loadFailMsgPrefix ++ e), 1)

def lowRiskLabel : String := "Low Risk"

def moderateRiskLabel : String := "Moderate Risk"

def highRiskLabel : String := "High Risk"

def greenColor : String := "green"

def orangeColor : String := "orange"

def redColor : String := "red"

def lowIcon : String := "OK"

def moderateIcon : String := "WARN"

def highIcon : String := "ALERT"

def lowRec : String :=
  "Low short-term rebleeding risk. Routine monitoring may be sufficient."

def moderateRec : String :=
  "Consider close observation and evaluate need for intensified therapy."

def highRec : String :=
  "High-risk patient! Consider blood transfusion, ICU admission, or early repeat endoscopy."

/-- The risk-level branch of the display block (source lines 169-180). -/
def risk_level (prob : ℚ) : String :=
  if prob < (0.4 : ℚ) then lowRiskLabel
  else if prob < (0.7 : ℚ) then moderateRiskLabel
  else highRiskLabel

/-- The colour assigned in the same branch (source lines 169-180). -/
def risk_color (prob : ℚ) : String :=
  if prob < (0.4 : ℚ) then greenColor
  else if prob < (0.7 : ℚ) then orangeColor
  else redColor

/-- The icon assigned in the same branch (source lines 169-180). -/
def risk_icon (prob : ℚ) : String :=
  if prob < (0.4 : ℚ) then lowIcon
  else if prob < (0.7 : ℚ) then moderateIcon
  else highIcon

/-- The clinical-recommendation branch (source lines 189-194), which
dispatches on the risk-level string. -/
def clinicalRecommendation (level : String) : String :=
  if level = lowRiskLabel then lowRec
  else if level = moderateRiskLabel then moderateRec
  else highRec

/-- Python `round` to the nearest integer with ties to even (banker's
rounding), used by `round(prob * 100, 1)`. -/
def roundHalfToEven (q : ℚ) : ℤ :=
  if q - ⌊q⌋ < (1 / 2 : ℚ) then ⌊q⌋
  else if (1 / 2 : ℚ) < q - ⌊q⌋ then ⌊q⌋ + 1
  else if 2 ∣ ⌊q⌋ then ⌊q⌋ else ⌊q⌋ + 1

/-- `round(x, 1)`: round to one decimal place. -/
def round1 (x : ℚ) : ℚ := (roundHalfToEven (x * 10) : ℚ) / 10

/-- Everything the result section renders for a given probability:
`prob_percent = round(prob * 100, 1)`, the level, colour and icon, and the
canned recommendation sentence (source lines 163-194). -/
structure Rendered where
  prob_percent : ℚ
  level : String
  color : String
  icon : String
  recommendation : String
deriving Repr, DecidableEq

def renderResult (prob : ℚ) : Rendered :=
  { prob_percent := round1 (prob * 100)
    level := risk_level prob
    color := risk_color prob
    icon := risk_icon prob
    recommendation := clinicalRecommendation (risk_level prob) }

/-- The records actually submitted to `model.predict_proba` during one
call of `predict_rebleeding`: the tagged record when construction
succeeds, nothing when coercion already raised. -/
def submittedRecords (method location descending creatinine bun pt aptt
    rockall aims65 : RawValue) : List PatientRecord :=
  match buildRecord method location descending creatinine bun pt aptt
      rockall aims65 with
  | Except.error _ => []
  | Except.ok r => [setCategoricals r]

/-- Outcome of one run of the script from the top: either halted by
`st.stop` after a load failure (with the diagnostic shown), or completed,
with the list of records submitted for inference and the rendered result
(present only when the form was submitted). -/
structure ScriptResult where
  halted : Option String
  inferences : List PatientRecord
  rendered : Option Rendered

/-- One top-to-bottom run of the script: `model = load_model()` executes
first (from an empty cache in a fresh process); a load failure shows a
diagnostic and `st.stop` halts the script before the form and prediction
sections, so no inference happens. Otherwise, if the form was submitted,
`predict_rebleeding` runs once and its probability is rendered. -/
def runScript (readArtifact : Except String Model) (submitted : Bool)
    (method location descending creatinine bun pt aptt rockall
    aims65 : RawValue) : ScriptResult :=
  match load_model none readArtifact with
  | (_, Except.error diag, _) =>
    { halted := some diag, inferences := [], rendered := none }
  | (_, Except.ok model, _) =>
    if submitted then
      { halted := none
        inferences := submittedRecords method location descending
          creatinine bun pt aptt rockall aims65
        rendered := some (renderResult (predict_rebleeding model method
          location descending creatinine bun pt aptt rockall
          aims65).1) }
    else { halted := none, inferences := [], rendered := none }

def methodOptions : List ℤ := [1, 2, 3, 4, 5]

def locationOptions : List ℤ := [1, 2, 3, 4, 5, 6, 7, 8, 9]

def descendingOptions : List ℤ := [0, 1]

/-- `st.selectbox`: the widget can only yield one of its listed options;
the user's choice is an index into the option list. -/
def selectbox (options : List ℤ) (choice : Fin options.length) : ℤ :=
  options.get choice

/-- `st.radio`: likewise restricted to its listed options. -/
def radio (options : List ℤ) (choice : Fin options.length) : ℤ :=
  options.get choice

/-- `st.number_input` with float bounds: the widget keeps the value within
[lo, hi] (the default is the initial value and does not affect the
constraint). -/
def number_inputQ (lo hi _default entered : ℚ) : ℚ :=
  max lo (min hi entered)

/-- `st.number_input` with integer bounds and step 1. -/
def number_inputZ (lo hi _default entered : ℤ) : ℤ :=
  max lo (min hi entered)

/-- The nine values gathered by the form (source lines 75-158). -/
structure FormData where
  method : ℤ
  location : ℤ
  descending : ℤ
  creatinine : ℚ
  bun : ℚ
  pt : ℚ
  aptt : ℚ
  rockall : ℤ
  aims65 : ℤ
deriving Repr, DecidableEq

/-- The `risk_form` block (source lines 75-158): method from a selectbox
over codes 1-5, location from a selectbox over codes 1-9, descending from
a radio over 0/1, the four lab values from bounded float inputs, and the
two scores from bounded integer inputs. -/
def risk_form (mc : Fin methodOptions.length)
    (lc : Fin locationOptions.length) (dc : Fin descendingOptions.length)
    (cr bu ptv ap : ℚ) (ro ai : ℤ) : FormData :=
  { method := selectbox methodOptions mc
    location := selectbox locationOptions lc
    descending := radio descendingOptions dc
    creatinine := number_inputQ 0 2000 80 cr
    bun := number_inputQ 0 100 10 bu
    pt := number_inputQ 0 60 13 ptv
    aptt := number_inputQ 0 200 30 ap
    rockall := number_inputZ 0 12 9 ro
    aims65 := number_inputZ 0 5 3 ai }

/-- A concrete opaque model used to instantiate theorems: always succeeds
with class probabilities (0.3, 0.7). -/
def constModel : Model := ⟨fun _ => Except.ok ((0.3 : ℚ), (0.7 : ℚ))⟩

def boomMsg : String := "boom"

/-- A concrete opaque model whose inference always raises. -/
def failModel : Model := ⟨fun _ => Except.error boomMsg⟩

theorem clamp01_mem (q : ℚ) : 0 ≤ clamp01 q ∧ clamp01 q ≤ 1 := by
  unfold clamp01
  exact ⟨le_max_left 0 _, max_le (by norm_num) (min_le_left 1 q)⟩

theorem try_predict_ok_bounds (model : Model) (method location descending
    creatinine bun pt aptt rockall aims65 : RawValue) (p : ℚ) :
    try_predict model method location descending creatinine bun pt aptt
      rockall aims65 = Except.ok p → 0 ≤ p ∧ p ≤ 1 := by
  intro h
  unfold try_predict at h
  split at h
  · cases h
  · split at h
    · cases h
    · injection h with h2
      rw [← h2]
      exact clamp01_mem _

/-- C1: for every input, the probability returned by `predict_rebleeding`
lies in [0,1]: on the success branch it is the clamp of the raw model
probability, on the error branch it is the fallback 0.5. -/
theorem predict_rebleeding_prob_in_unit_interval (model : Model)
    (method location descending creatinine bun pt aptt rockall
    aims65 : RawValue) :
    0 ≤ (predict_rebleeding model method location descending creatinine
        bun pt aptt rockall aims65).1 ∧
    (predict_rebleeding model method location descending creatinine bun
        pt aptt rockall aims65).1 ≤ 1 := by
  unfold predict_rebleeding
  cases h : try_predict model method location descending creatinine bun
      pt aptt rockall aims65 with
  | ok p =>
    simpa using try_predict_ok_bounds model method location descending
      creatinine bun pt aptt rockall aims65 p h
  | error e => constructor <;> norm_num

/-- C2: the risk-band mapping is total on ℚ with half-open intervals at
the cut points 0.4 and 0.7: below 0.4 it is Low, from 0.4 up to but not
including 0.7 it is Moderate, from 0.7 on it is High; in particular
0.39999 maps to Low, 0.4 to Moderate, 0.69999 to Moderate and 0.7 to
High. -/
theorem risk_level_banding :
    (∀ p : ℚ, p < 0.4 → risk_level p = lowRiskLabel) ∧
    (∀ p : ℚ, 0.4 ≤ p → p < 0.7 → risk_level p = moderateRiskLabel) ∧
    (∀ p : ℚ, 0.7 ≤ p → risk_level p = highRiskLabel) ∧
    risk_level 0.39999 = lowRiskLabel ∧
    risk_level 0.4 = moderateRiskLabel ∧
    risk_level 0.69999 = moderateRiskLabel ∧
    risk_level 0.7 = highRiskLabel := by
  refine ⟨?_, ?_, ?_, ?_, ?_, ?_, ?_⟩
  · intro p h
    rw [risk_level, if_pos h]
  · intro p h1 h2
    rw [risk_level, if_neg (not_lt.2 h1), if_pos h2]
  · intro p h
    have h4 : ¬ p < (0.4 : ℚ) := not_lt.2 (le_trans (by norm_num) h)
    have h7 : ¬ p < (0.7 : ℚ) := not_lt.2 h
    rw [risk_level, if_neg h4, if_neg h7]
  · norm_num [risk_level]
  · norm_num [risk_level]
  · norm_num [risk_level]
  · norm_num [risk_level]

theorem risk_level_banding_witness :
    risk_level 0.2 = lowRiskLabel ∧
    risk_level 0.5 = moderateRiskLabel ∧
    risk_level 0.8 = highRiskLabel :=
  ⟨risk_level_banding.1 0.2 (by norm_num),
   risk_level_banding.2.1 0.5 (by norm_num) (by norm_num),
   risk_level_banding.2.2.1 0.8 (by norm_num)⟩

/-- C3: if the try block of `predict_rebleeding` raises any error (during
record coercion or model inference), the function catches it, reports it
as a non-fatal message, and returns exactly 0.5 instead of propagating the
exception. -/
theorem predict_rebleeding_fallback_on_error (model : Model) (method
    location descending creatinine bun pt aptt rockall aims65 : RawValue)
    (e : String)
    (h : try_predict model method location descending creatinine bun pt
      aptt rockall aims65 = Except.error e) :
    predict_rebleeding model method location descending creatinine bun pt
      aptt rockall aims65 = ((0.5 : ℚ), some (predictionErrorMsg e)) := by
  unfold predict_rebleeding
  rw [h]

theorem predict_rebleeding_fallback_on_error_witness :
    predict_rebleeding failModel (RawValue.int 1) (RawValue.int 2)
      (RawValue.int 0) (RawValue.float 80) (RawValue.float 10)
      (RawValue.float 13) (RawValue.float 30) (RawValue.int 9)
      (RawValue.int 3) = ((0.5 : ℚ), some (predictionErrorMsg boomMsg)) :=
  predict_rebleeding_fallback_on_error failModel _ _ _ _ _ _ _ _ _
    boomMsg rfl

/-- C4: if the classifier artifact is missing or corrupt, loading fails
with a diagnostic and the script halts at `st.stop`: the run ends halted,
nothing is rendered, and no record is ever submitted for inference. -/
theorem load_failure_halts_without_inference (e : String)
    (submitted : Bool) (method location descending creatinine bun pt aptt
    rockall aims65 : RawValue) :
    runScript (Except.error e) submitted method location descending
      creatinine bun pt aptt rockall aims65 =
      { halted := some (loadFailMsgPrefix ++ e), inferences := [],
        rendered := none } := rfl

theorem buildRecord_ok_flags (method location descending creatinine bun
    pt aptt rockall aims65 : RawValue) (r : PatientRecord) :
    buildRecord method location descending creatinine bun pt aptt rockall
      aims65 = Except.ok r → r.catFlags = noCatFlags := by
  intro h
  unfold buildRecord at h
  repeat' split at h
  all_goals first
    | (injection h with h2; rw [← h2])
    | cases h

/-- C5: whenever the record construction succeeds, the record submitted to
the model's `predict_proba` is the tagged record, whose dtype flags mark
exactly the three categorical fields Method, Location and Descending (and
none of the six numeric fields), and the try block consults the model
precisely on that record. -/
theorem categorical_tagging_before_inference (model : Model) (method
    location descending creatinine bun pt aptt rockall aims65 : RawValue)
    (r : PatientRecord)
    (h : buildRecord method location descending creatinine bun pt aptt
      rockall aims65 = Except.ok r) :
    (setCategoricals r).catFlags = taggedFlags ∧
    submittedRecords method location descending creatinine bun pt aptt
      rockall aims65 = [setCategoricals r] ∧
    try_predict model method location descending creatinine bun pt aptt
      rockall aims65 =
      (match Model.predict_proba model (setCategoricals r) with
       | Except.error e => Except.error e
       | Except.ok probs => Except.ok (clamp01 probs.2)) := by
  refine ⟨?_, ?_, ?_⟩
  · have hf := buildRecord_ok_flags method location descending creatinine
      bun pt aptt rockall aims65 r h
    simp [setCategoricals, hf, taggedFlags, noCatFlags]
  · unfold submittedRecords
    rw [h]
  · unfold try_predict
    rw [h]

/-- The record built from the sample inputs method 1, location 2,
descending 0, creatinine 80, BUN 10, PT 13, APTT 30, Rockall 9,
AIMS65 3. -/
def sampleRecord : PatientRecord :=
  { Method := 1, Location := 2, Descending := 0, Creatinine := 80,
    BUN := 10, PT := 13, APTT := 30, Rockall := 9, AIMS65 := 3,
    catFlags := noCatFlags }

theorem categorical_tagging_before_inference_witness :
    (setCategoricals sampleRecord).catFlags = taggedFlags ∧
    submittedRecords (RawValue.int 1) (RawValue.int 2) (RawValue.int 0)
      (RawValue.float 80) (RawValue.float 10) (RawValue.float 13)
      (RawValue.float 30) (RawValue.int 9) (RawValue.int 3) =
      [setCategoricals sampleRecord] ∧
    try_predict constModel (RawValue.int 1) (RawValue.int 2)
      (RawValue.int 0) (RawValue.float 80) (RawValue.float 10)
      (RawValue.float 13) (RawValue.float 30) (RawValue.int 9)
      (RawValue.int 3) =
      (match Model.predict_proba constModel (setCategoricals sampleRecord)
          with
       | Except.error e => Except.error e
       | Except.ok probs => Except.ok (clamp01 probs.2)) :=
  categorical_tagging_before_inference constModel _ _ _ _ _ _ _ _ _
    sampleRecord rfl

/-- C6: `predict_rebleeding` is deterministic in its inputs and the model
handle: two invocations with the same loaded model and the same nine-field
input return identical results. -/
theorem predict_rebleeding_deterministic (m₁ m₂ : Model) (method location
    descending creatinine bun pt aptt rockall aims65 : RawValue)
    (h : m₁ = m₂) :
    predict_rebleeding m₁ method location descending creatinine bun pt
      aptt rockall aims65 =
    predict_rebleeding m₂ method location descending creatinine bun pt
      aptt rockall aims65 := by
  rw [h]

theorem predict_rebleeding_deterministic_witness :
    predict_rebleeding constModel (RawValue.int 1) (RawValue.int 2)
      (RawValue.int 0) (RawValue.float 80) (RawValue.float 10)
      (RawValue.float 13) (RawValue.float 30) (RawValue.int 9)
      (RawValue.int 3) =
    predict_rebleeding constModel (RawValue.int 1) (RawValue.int 2)
      (RawValue.int 0) (RawValue.float 80) (RawValue.float 10)
      (RawValue.float 13) (RawValue.float 30) (RawValue.int 9)
      (RawValue.int 3) :=
  predict_rebleeding_deterministic constModel constModel _ _ _ _ _ _ _ _
    _ rfl

/-- C7: the model handle is a lazily initialized, at-most-once,
process-wide singleton: from an empty cache the first successful call
reads the artifact exactly once and caches the handle, and a subsequent
call with the cache that call produced returns the very same handle with
zero file reads, whatever the file would read as now. -/
theorem load_model_cached_singleton (m : Model)
    (readAgain : Except String Model) :
    load_model none (Except.ok m) = (some m, Except.ok m, 1) ∧
    load_model (load_model none (Except.ok m)).1 readAgain =
      (some m, Except.ok m, 0) :=
  ⟨rfl, rfl⟩

/-- C8: the record construction coerces each raw value to its declared
type — Method, Location and Descending by `int`, Creatinine, BUN, PT and
APTT by `float`, Rockall and AIMS65 by `int` — and produces the single-row
record with one named column per feature holding exactly the coerced
values. -/
theorem buildRecord_coerces_fields (method location descending creatinine
    bun pt aptt rockall aims65 : RawValue) (m l d : ℤ) (cr bu ptv ap : ℚ)
    (ro ai : ℤ)
    (h1 : pyInt method = Except.ok m)
    (h2 : pyInt location = Except.ok l)
    (h3 : pyInt descending = Except.ok d)
    (h4 : pyFloat creatinine = Except.ok cr)
    (h5 : pyFloat bun = Except.ok bu)
    (h6 : pyFloat pt = Except.ok ptv)
    (h7 : pyFloat aptt = Except.ok ap)
    (h8 : pyInt rockall = Except.ok ro)
    (h9 : pyInt aims65 = Except.ok ai) :
    buildRecord method location descending creatinine bun pt aptt rockall
      aims65 = Except.ok
      { Method := m, Location := l, Descending := d, Creatinine := cr,
        BUN := bu, PT := ptv, APTT := ap, Rockall := ro, AIMS65 := ai,
        catFlags := noCatFlags } := by
  unfold buildRecord
  simp only [h1, h2, h3, h4, h5, h6, h7, h8, h9]

theorem buildRecord_coerces_fields_witness :
    buildRecord (RawValue.int 1) (RawValue.int 2) (RawValue.int 0)
      (RawValue.float 80) (RawValue.float 10) (RawValue.float 13)
      (RawValue.float 30) (RawValue.int 9) (RawValue.int 3) =
      Except.ok sampleRecord :=
  buildRecord_coerces_fields _ _ _ _ _ _ _ _ _ 1 2 0 80 10 13 30 9 3
    rfl rfl rfl rfl rfl rfl rfl rfl rfl

/-- C9: every form submission keeps the categorical fields inside their
enumerated domains by construction of the widgets: the method code is one
of 1..5, the location code one of 1..9 and the descending flag 0 or 1, so
the pre-validated-domain assumption of the core holds for every record the
form hands to `predict_rebleeding`. -/
theorem risk_form_categorical_domains (mc : Fin methodOptions.length)
    (lc : Fin locationOptions.length) (dc : Fin descendingOptions.length)
    (cr bu ptv ap : ℚ) (ro ai : ℤ) :
    (risk_form mc lc dc cr bu ptv ap ro ai).method ∈ methodOptions ∧
    (risk_form mc lc dc cr bu ptv ap ro ai).location ∈ locationOptions ∧
    (risk_form mc lc dc cr bu ptv ap ro ai).descending ∈
      descendingOptions := by
  refine ⟨?_, ?_, ?_⟩ <;> exact List.get_mem _ _ _

/-- C10: whenever inference fails, the substituted fallback 0.5 falls in
the Moderate band (0.4 ≤ 0.5 < 0.7), so the failure is rendered with the
Moderate Risk label, the orange colour and the moderate-risk
recommendation — and the rendering is identical to that of a genuine
model output of 0.5. -/
theorem fallback_renders_moderate (model : Model) (method location
    descending creatinine bun pt aptt rockall aims65 : RawValue)
    (e : String)
    (h : try_predict model method location descending creatinine bun pt
      aptt rockall aims65 = Except.error e) :
    (predict_rebleeding model method location descending creatinine bun
      pt aptt rockall aims65).1 = (0.5 : ℚ) ∧
    ((0.4 : ℚ) ≤ (0.5 : ℚ) ∧ (0.5 : ℚ) < (0.7 : ℚ)) ∧
    renderResult (predict_rebleeding model method location descending
      creatinine bun pt aptt rockall aims65).1 = renderResult 0.5 ∧
    risk_level (0.5 : ℚ) = moderateRiskLabel ∧
    risk_color (0.5 : ℚ) = orangeColor ∧
    clinicalRecommendation (risk_level (0.5 : ℚ)) = moderateRec := by
  have hp : (predict_rebleeding model method location descending
      creatinine bun pt aptt rockall aims65).1 = (0.5 : ℚ) := by
    unfold predict_rebleeding
    rw [h]
  have hlvl : risk_level (0.5 : ℚ) = moderateRiskLabel := by
    norm_num [risk_level]
  refine ⟨hp, by norm_num, by rw [hp], hlvl, ?_, ?_⟩
  · norm_num [risk_color]
  · rw [hlvl, clinicalRecommendation, if_neg (by decide), if_pos rfl]

theorem fallback_renders_moderate_witness :
    (predict_rebleeding failModel (RawValue.int 1) (RawValue.int 2)
      (RawValue.int 0) (RawValue.float 80) (RawValue.float 10)
      (RawValue.float 13) (RawValue.float 30) (RawValue.int 9)
      (RawValue.int 3)).1 = (0.5 : ℚ) ∧
    ((0.4 : ℚ) ≤ (0.5 : ℚ) ∧ (0.5 : ℚ) < (0.7 : ℚ)) ∧
    renderResult (predict_rebleeding failModel (RawValue.int 1)
      (RawValue.int 2) (RawValue.int 0) (RawValue.float 80)
      (RawValue.float 10) (RawValue.float 13) (RawValue.float 30)
      (RawValue.int 9) (RawValue.int 3)).1 = renderResult 0.5 ∧
    risk_level (0.5 : ℚ) = moderateRiskLabel ∧
    risk_color (0.5 : ℚ) = orangeColor ∧
    clinicalRecommendation (risk_level (0.5 : ℚ)) = moderateRec :=
  fallback_renders_moderate failModel _ _ _ _ _ _ _ _ _ boomMsg rfl

end St
